import Mathlib

/-!
Verification of the `x-to-txt` command-line text extractor
(`extract_text.py`): a shallow embedding of its format resolver,
extractors, output router and CLI driver, together with theorems about
the behaviour documented in its specification.

Python strings become `String`, `None`-able values become `Option`,
Python truthiness of an optional string is made explicit
(`optTruthy`), exceptions become `Except PyExn`, where `PyExn`
distinguishes `Exception` subclasses (caught by the extractors) from
`SystemExit` (raised by `sys.exit`, which `except Exception` does not
catch).  Lines printed to standard output are collected in a
`List String`.  The filesystem is an explicit state `FSState`; the
third-party parsing libraries are parameters (oracles) giving the
document object model the source iterates over.  The platform is
POSIX, so `os.sep` is the slash.  String primitives are implemented
over character lists so every definition evaluates inside the kernel.
-/

deriving instance DecidableEq for Except

/-- Truthiness of an optional Python string: `None` and the empty
string are falsy, any other string is truthy (`if specified_format:`,
`if args.output:`, `if not output_path:`). -/
def optTruthy : Option String → Bool
  | none => false
  | some s => s ≠ ""

/-- Index of the last occurrence of character `c` in `l`
(`str.rfind`), as an `Option` instead of `-1`. -/
def lastIdxOf (l : List Char) (c : Char) : Option Nat :=
  ((List.range l.length).filter (fun i => l.getD i ' ' = c)).getLast?

/-- Lower-casing a string (`str.lower`), character by character. -/
def strToLower (s : String) : String :=
  String.mk (s.toList.map Char.toLower)

/-- Whether `s` starts with `pre` (`str.startswith`). -/
def strStartsWith (s pre : String) : Bool :=
  decide (s.toList.take pre.toList.length = pre.toList)

/-- Whether `s` ends with `suf` (`str.endswith`). -/
def strEndsWith (s suf : String) : Bool :=
  decide (suf.toList.length ≤ s.toList.length) &&
    decide (s.toList.drop (s.toList.length - suf.toList.length) = suf.toList)

/-- Splitting a character list at every occurrence of `c`
(`str.split` with a one-character separator). -/
def splitOnChar (c : Char) (l : List Char) : List (List Char) :=
  l.foldr
    (fun x acc =>
      match acc with
      | [] => [[x]]
      | a :: rest => if x = c then [] :: a :: rest else (x :: a) :: rest)
    [[]]

/-- Whether `pat` occurs as a contiguous sublist of `l` (Python
`pat in l` on strings). -/
def containsSub (l pat : List Char) : Bool :=
  (List.range (l.length + 1)).any (fun i => decide ((l.drop i).take pat.length = pat))

/-- POSIX `os.path.basename`: everything after the last slash. -/
def basename (p : String) : String :=
  match lastIdxOf p.toList '/' with
  | none => p
  | some i => String.mk (p.toList.drop (i + 1))

/-- POSIX `os.path.dirname`: everything before the last slash, with
trailing slashes stripped unless the result is all slashes. -/
def dirname (p : String) : String :=
  match lastIdxOf p.toList '/' with
  | none => ""
  | some i =>
    let head := p.toList.take (i + 1)
    if head.all (fun c => c = '/') then String.mk head
    else String.mk ((head.reverse.dropWhile (fun c => c = '/')).reverse)

/-- POSIX `os.path.splitext`: splits at the last dot of the final
component, provided that dot lies after the last slash and the
component does not consist solely of leading dots up to it. -/
def splitext (p : String) : String × String :=
  let l := p.toList
  let s := match lastIdxOf l '/' with
    | none => 0
    | some i => i + 1
  match lastIdxOf l '.' with
  | none => (p, "")
  | some d =>
    if s ≤ d ∧ ((l.drop s).take (d - s)).any (fun c => c ≠ '.') then
      (String.mk (l.take d), String.mk (l.drop d))
    else (p, "")

/-- POSIX `os.path.join` for two components. -/
def joinPath (a b : String) : String :=
  if strStartsWith b "/" then b
  else if a = "" ∨ strEndsWith a "/" then a ++ b
  else a ++ "/" ++ b

/-- Supported format tags (`"pdf"`, `"docx"`, `"pptx"`). -/
inductive FileFormat
  | pdf
  | docx
  | pptx
deriving DecidableEq, Repr

/-- Lower-case tag string of a format. -/
def FileFormat.tag : FileFormat → String
  | .pdf => "pdf"
  | .docx => "docx"
  | .pptx => "pptx"

/-- Dotted extension recognised for a format. -/
def FileFormat.extTag : FileFormat → String
  | .pdf => ".pdf"
  | .docx => ".docx"
  | .pptx => ".pptx"

/-- Failure modes of `determine_file_format`; the source prints the
corresponding message and returns `None`. -/
inductive FormatError
  | invalidFormat (s : String)
  | unsupportedFormat (path : String)
deriving DecidableEq, Repr

/-- Message printed for a `FormatError` in `determine_file_format`. -/
def FormatError.msg : FormatError → String
  | .invalidFormat s => "Error: Invalid format specified: " ++ s
  | .unsupportedFormat p => "Error: Unsupported file format for " ++ p

/-- Source `determine_file_format(file_path, specified_format)`: if the
specified format is truthy it is lower-cased and must be one of the
three tags; otherwise the lower-cased `splitext` extension of the path
is matched against the three dotted extensions. -/
def determine_file_format (file_path : String) (specified_format : Option String) :
    Except FormatError FileFormat :=
  if optTruthy specified_format then
    let s := strToLower (specified_format.getD "")
    if s = "pdf" then Except.ok FileFormat.pdf
    else if s = "docx" then Except.ok FileFormat.docx
    else if s = "pptx" then Except.ok FileFormat.pptx
    else Except.error (FormatError.invalidFormat s)
  else
    let extension := strToLower (splitext file_path).2
    if extension = ".pdf" then Except.ok FileFormat.pdf
    else if extension = ".docx" then Except.ok FileFormat.docx
    else if extension = ".pptx" then Except.ok FileFormat.pptx
    else Except.error (FormatError.unsupportedFormat file_path)

/-- Python exceptions, split by what `except Exception` catches:
`exception` stands for any `Exception` subclass, `systemExit` for
`SystemExit` as raised by `sys.exit(code)`, which is a `BaseException`
only and therefore escapes the extractors' handlers. -/
inductive PyExn
  | exception (msg : String)
  | systemExit (code : Nat)
deriving DecidableEq, Repr

/-- A `try: ... except Exception as e: ...` block around a body that
computes a string and prints output: an `exception` is handed to the
handler (its output follows the body's), while a `systemExit`
propagates. -/
def tryExceptStr (body : Except PyExn String × List String)
    (handler : String → String × List String) : Except PyExn String × List String :=
  match body with
  | (Except.ok v, out) => (Except.ok v, out)
  | (Except.error (PyExn.exception m), out) =>
    let h := handler m
    (Except.ok h.1, out ++ h.2)
  | (Except.error (PyExn.systemExit c), out) => (Except.error (PyExn.systemExit c), out)

/-- Stub for `extract_pdf_text` installed when `pdfminer.six` failed
to import: prints the install instruction and calls `sys.exit(1)`. -/
def extract_pdf_text_missing (_file_path : String) : Except PyExn String × List String :=
  (Except.error (PyExn.systemExit 1),
   ["Error: pdfminer.six not installed. Run pip install pdfminer.six."])

/-- Source `extract_text_from_pdf(file_path, verbose)`.  The pdfminer call is
the parameter `extract_pdf_text` (result plus printed lines); the raw
bytes that the verbose branch scans for the `/Page ` marker are the
lines `rawLines file_path`. -/
def extract_text_from_pdf (extract_pdf_text : String → Except PyExn String × List String)
    (rawLines : String → List String) (file_path : String) (verbose : Bool) :
    Except PyExn String × List String :=
  tryExceptStr
    (match extract_pdf_text file_path with
     | (Except.error e, out) => (Except.error e, out)
     | (Except.ok text, out) =>
       let vout := if verbose then
           let page_count :=
             ((rawLines file_path).filter (fun l => containsSub l.toList "/Page ".toList)).length
           ["Processed " ++ toString page_count ++ " pages from PDF file: " ++ file_path]
         else []
       (Except.ok text, out ++ vout))
    (fun m => ("", ["Error extracting text from PDF: " ++ m]))

/-- Source `extract_text_from_docx(file_path, verbose)`.  `open_docx` stands
for `docx.Document`; a document is its ordered list of paragraph
texts. -/
def extract_text_from_docx (open_docx : String → Except PyExn (List String))
    (file_path : String) (verbose : Bool) : Except PyExn String × List String :=
  tryExceptStr
    (match open_docx file_path with
     | Except.error e => (Except.error e, [])
     | Except.ok paragraphs =>
       let text := String.intercalate "\n" paragraphs
       let vout := if verbose then
           ["Processed " ++ toString paragraphs.length ++ " paragraphs from DOCX file: " ++ file_path]
         else []
       (Except.ok text, vout))
    (fun m => ("", ["Error extracting text from DOCX: " ++ m]))

/-- A slide shape: `none` when the shape has no `text` attribute,
`some s` when `shape.text` is the string `s`. -/
abbrev Shape := Option String

/-- A slide is its ordered list of shapes. -/
abbrev Slide := List Shape

/-- Texts collected from one slide: the `shape.text` of every shape
that has the attribute and whose text is truthy (non-empty), in shape
order (`hasattr(shape, "text") and shape.text`). -/
def slideTexts (slide : Slide) : List String :=
  slide.filterMap (fun sh =>
    match sh with
    | some s => if s ≠ "" then some s else none
    | none => none)

/-- The slide loop of `extract_text_from_pptx`: walks the slides with
the 1-based counter `i` of `enumerate(presentation.slides, 1)`,
appending to the accumulated `text_parts` a separator line and the
slide texts whenever the slide contributed any, and counting
text-bearing shapes in `cnt`. -/
def pptxLoop : List Slide → Nat → List String → Nat → List String × Nat
  | [], _, text_parts, cnt => (text_parts, cnt)
  | slide :: rest, i, text_parts, cnt =>
    let slide_text := slideTexts slide
    let text_parts := if slide_text.isEmpty then text_parts
      else text_parts ++ ("--- Slide " ++ toString i ++ " ---") :: slide_text
    pptxLoop rest (i + 1) text_parts (cnt + slide_text.length)

/-- Source `extract_text_from_pptx(file_path, verbose)`.  `open_pptx` stands
for `pptx.Presentation`; a presentation is its ordered list of
slides. -/
def extract_text_from_pptx (open_pptx : String → Except PyExn (List Slide))
    (file_path : String) (verbose : Bool) : Except PyExn String × List String :=
  tryExceptStr
    (match open_pptx file_path with
     | Except.error e => (Except.error e, [])
     | Except.ok slides =>
       let r := pptxLoop slides 1 [] 0
       let vout := if verbose then
           ["Processed " ++ toString slides.length ++ " slides and " ++ toString r.2 ++
            " text elements from PPTX file: " ++ file_path]
         else []
       (Except.ok (String.intercalate "\n" r.1), vout))
    (fun m => ("", ["Error extracting text from PPTX: " ++ m]))

/-- Filesystem state: existing directories, existing regular files
with their contents (most recent write first), and the set of paths
whose `open(..., "w")` raises (the `WriteFailure` oracle). -/
structure FSState where
  dirs : List String
  files : List (String × String)
  writeFailures : List String
deriving DecidableEq, Repr

/-- Predicate `os.path.isdir`. -/
def FSState.isdir (fs : FSState) (p : String) : Bool :=
  fs.dirs.contains p

/-- Predicate `os.path.exists`: a directory or a regular file. -/
def FSState.pathExists (fs : FSState) (p : String) : Bool :=
  fs.dirs.contains p || (fs.files.map (fun e => e.1)).contains p

/-- Action `os.makedirs(p, exist_ok=True)`: records `p` and every slash
prefix of it as directories (skipping empty components and directories
that already exist). -/
def FSState.makedirs (fs : FSState) (p : String) : FSState :=
  let parts := (splitOnChar '/' p.toList).map String.mk
  let entries := (List.range parts.length).map
    (fun k => String.intercalate "/" (parts.take (k + 1)))
  { fs with dirs := entries.filter (fun d => d ≠ "" && !fs.dirs.contains d) ++ fs.dirs }

/-- Action `open(path, "w"); f.write(text)` under the enclosing
`try/except`: on success the file is (over)written and the
confirmation line printed; a raising path produces the error line and
leaves the state unchanged. -/
def FSState.write (fs : FSState) (path text : String) : FSState × List String :=
  if fs.writeFailures.contains path then
    (fs, ["Error writing to output file: " ++ path])
  else
    ({ fs with files := (path, text) :: fs.files.filter (fun e => e.1 ≠ path) },
     ["Text extracted to: " ++ path])

/-- Source `handle_output(text, output_path, input_path)`: empty text is a
silent no-op; no (truthy) output path prints the text; a
directory-shaped path (existing directory, or non-existent and ending
in `os.sep`) is created and receives `<stem>.txt` of the input; any
other path is written directly after ensuring its parent directory
exists.  Returns the new filesystem state and the printed lines. -/
def handle_output (text : String) (output_path : Option String) (input_path : String)
    (fs : FSState) : FSState × List String :=
  if text = "" then (fs, [])
  else if !optTruthy output_path then (fs, [text])
  else
    let op := output_path.getD ""
    if fs.isdir op || (!fs.pathExists op && strEndsWith op "/") then
      let fs := fs.makedirs op
      let base_name := basename input_path
      let name_without_ext := (splitext base_name).1
      let output_file := joinPath op (name_without_ext ++ ".txt")
      fs.write output_file text
    else
      let output_dir := dirname op
      let fs := if output_dir ≠ "" && !fs.pathExists output_dir then fs.makedirs output_dir else fs
      fs.write op text

/-- The third-party libraries as oracles: pdfminer's whole-document
extraction (with its printed output), the raw lines of a file for the
verbose page scan, and the docx/pptx object models. -/
structure Env where
  pdfLib : String → Except PyExn String × List String
  pdfRaw : String → List String
  docxLib : String → Except PyExn (List String)
  pptxLib : String → Except PyExn (List Slide)

/-- Lifts an extractor result into `extract_text`'s optional-string
result. -/
def liftExtract (r : Except PyExn String × List String) :
    Except PyExn (Option String) × List String :=
  match r with
  | (Except.ok t, out) => (Except.ok (some t), out)
  | (Except.error e, out) => (Except.error e, out)

/-- Source `extract_text(file_path, format_type, verbose)`: missing input
files and unresolvable formats yield `None` after a printed message
(the message of `determine_file_format` is printed where the error
arises in the source); otherwise the format dispatches to the
matching extractor. -/
def extract_text (env : Env) (fs : FSState) (file_path : String)
    (format_type : Option String) (verbose : Bool) :
    Except PyExn (Option String) × List String :=
  if !fs.pathExists file_path then
    (Except.ok none, ["Error: File not found: " ++ file_path])
  else
    match determine_file_format file_path format_type with
    | Except.error e => (Except.ok none, [e.msg])
    | Except.ok FileFormat.pdf => liftExtract (extract_text_from_pdf env.pdfLib env.pdfRaw file_path verbose)
    | Except.ok FileFormat.docx => liftExtract (extract_text_from_docx env.docxLib file_path verbose)
    | Except.ok FileFormat.pptx => liftExtract (extract_text_from_pptx env.pptxLib file_path verbose)

/-- Parsed command-line arguments.  `argparse` guarantees
`file_paths` non-empty (`nargs="+"`) and `format`, when present, a
member of the literal `choices` list checked by
`format_choice_ok`. -/
structure Args where
  file_paths : List String
  format : Option String
  output : Option String
  verbose : Bool

/-- The `choices=["pdf", "docx", "pptx"]` check `argparse` applies to
the value of the format flag (`-f`, `--format`): exact
(case-sensitive) membership. -/
def format_choice_ok (v : String) : Bool :=
  ["pdf", "docx", "pptx"].contains v

/-- The `output_is_dir` decision of `main`, computed once before the
per-file loop: an output path was supplied (truthy) and it is an
existing directory, or ends with `os.sep`, or more than one input was
given (`not is_single_file`). -/
def output_is_dir (args : Args) (fs : FSState) : Bool :=
  optTruthy args.output &&
    (fs.isdir (args.output.getD "") || strEndsWith (args.output.getD "") "/" ||
     args.file_paths.length ≠ 1)

/-- The concrete output path `main` hands to `handle_output` for one
input file: under a directory-shaped target, the directory joined
with `<stem>.txt` of the input; otherwise the output path as given;
`None` when no output was requested. -/
def per_file_output_path (args : Args) (oid : Bool) (file_path : String) : Option String :=
  if optTruthy args.output then
    if oid then
      let base_name := basename file_path
      let name_without_ext := (splitext base_name).1
      some (joinPath (args.output.getD "") (name_without_ext ++ ".txt"))
    else args.output
  else none

/-- One iteration of the loop in `main`: the optional verbose line,
`extract_text`, and, when it yielded text, the directory creation for
a directory-shaped target followed by `handle_output`.  A
`systemExit` escaping `extract_text` aborts with the output so
far. -/
def processFile (args : Args) (env : Env) (oid : Bool) (fs : FSState) (file_path : String) :
    Except PyExn FSState × List String :=
  let vout := if args.verbose then ["Processing file: " ++ file_path] else []
  match extract_text env fs file_path args.format args.verbose with
  | (Except.error e, out) => (Except.error e, vout ++ out)
  | (Except.ok none, out) => (Except.ok fs, vout ++ out)
  | (Except.ok (some text), out) =>
    let fs1 := if optTruthy args.output && oid then fs.makedirs (args.output.getD "") else fs
    let r := handle_output text (per_file_output_path args oid file_path) file_path fs1
    (Except.ok r.1, vout ++ out ++ r.2)

/-- The per-file loop of `main`, threading the filesystem state; the
directory-shaped decision `oid` is fixed for the whole run. -/
def mainLoop (args : Args) (env : Env) (oid : Bool) :
    List String → FSState → Except PyExn FSState × List String
  | [], fs => (Except.ok fs, [])
  | fp :: rest, fs =>
    match processFile args env oid fs fp with
    | (Except.error e, out) => (Except.error e, out)
    | (Except.ok fs2, out) =>
      let r := mainLoop args env oid rest fs2
      (r.1, out ++ r.2)

/-- Source `main` after argument parsing (Lean reserves the name `main`, so
the definition is `main_fn`): computes `output_is_dir` once from the
initial filesystem state and runs the per-file loop with it. -/
def main_fn (args : Args) (env : Env) (fs : FSState) : Except PyExn FSState × List String :=
  mainLoop args env (output_is_dir args fs) args.file_paths fs


/-- Concrete filesystem state used by the concrete theorems: an
existing directory `out` and one existing input file. -/
def fs0 : FSState :=
  { dirs := ["out"], files := [("deck.pptx", "x")], writeFailures := [] }

/-- Arguments of the two-input run with stem-colliding input files
`a/doc.pdf` and `b/doc.docx` and output directory `out`. -/
def argsC9 : Args :=
  { file_paths := ["a/doc.pdf", "b/doc.docx"], format := none,
    output := some "out", verbose := false }

/-- Library oracles for the stem-collision run: the PDF extracts to
`PDF TEXT`, the DOCX to the single paragraph `DOCX TEXT`. -/
def envC9 : Env :=
  { pdfLib := fun _ => (Except.ok "PDF TEXT", []), pdfRaw := fun _ => [],
    docxLib := fun _ => Except.ok ["DOCX TEXT"], pptxLib := fun _ => Except.ok [] }

/-- Initial filesystem for the stem-collision run: directory `out`
exists, both inputs exist. -/
def fsC9 : FSState :=
  { dirs := ["out"], files := [("a/doc.pdf", ""), ("b/doc.docx", "")],
    writeFailures := [] }

/-- Arguments with two input files and no output path. -/
def argsC5 : Args :=
  { file_paths := ["a.pdf", "b.pdf"], format := none, output := none, verbose := false }

/-- Arguments with two input files and output path `out`. -/
def argsC5w : Args :=
  { file_paths := ["a/doc.pdf", "b/doc.docx"], format := none,
    output := some "out", verbose := false }

/-- A trivial library environment for witnesses that need one. -/
def env0 : Env :=
  { pdfLib := fun _ => (Except.ok "", []), pdfRaw := fun _ => [],
    docxLib := fun _ => Except.ok [], pptxLib := fun _ => Except.ok [] }

/-- Unfolding of the pptx slide loop: starting the 1-based counter at
`i` with accumulated parts `acc` and shape count `cnt`, the loop
appends, for each slide that has any text-bearing shape, a separator
line carrying the counter value followed by that slide's texts, and
adds the number of text-bearing shapes to the count. -/
theorem pptxLoop_enumFrom (slides : List Slide) : ∀ (i cnt : Nat) (acc : List String),
    pptxLoop slides i acc cnt
      = (acc ++ (((List.enumFrom i slides).map (fun p =>
            let st := slideTexts p.2
            if st.isEmpty then [] else ("--- Slide " ++ toString p.1 ++ " ---") :: st)).flatten),
         cnt + ((slides.map (fun sl => (slideTexts sl).length)).sum)) := by
  induction slides with
  | nil => intro i cnt acc; simp [pptxLoop]
  | cons sl rest ih =>
    intro i cnt acc
    by_cases h : (slideTexts sl).isEmpty
    · have h0 : slideTexts sl = [] := by simpa [List.isEmpty_iff] using h
      simp [pptxLoop, h0, ih, List.enumFrom]
    · have h0 : slideTexts sl ≠ [] := by simpa [List.isEmpty_iff] using h
      simp [pptxLoop, h, h0, ih, List.enumFrom, Nat.add_assoc, Nat.add_comm]

/-- Slides with no text-bearing shapes leave the accumulated parts
and the shape count of the pptx slide loop unchanged. -/
theorem pptxLoop_texts_empty (slides : List Slide) : ∀ (i cnt : Nat) (acc : List String),
    (∀ sl ∈ slides, slideTexts sl = []) → pptxLoop slides i acc cnt = (acc, cnt) := by
  induction slides with
  | nil => intro i cnt acc _; simp [pptxLoop]
  | cons sl rest ih =>
    intro i cnt acc h
    have h1 : slideTexts sl = [] := h sl (by simp)
    have h2 : ∀ s ∈ rest, slideTexts s = [] := fun s hs => h s (by simp [hs])
    simp [pptxLoop, h1, ih _ _ _ h2]

/-- C1 (counterexample): for a PPTX whose open raises, the extractor
does return the empty string after printing a diagnostic, but the
Output Router does not "still write/print that empty result": routing
the empty text neither prints a line nor changes any file — the file
is skipped, contrary to the claim. -/
theorem C1_counterexample :
    extract_text_from_pptx (fun _ => Except.error (PyExn.exception "bad zip")) "deck.pptx" false
      = (Except.ok "", ["Error extracting text from PPTX: bad zip"])
    ∧ handle_output "" (some "out") "deck.pptx" fs0 = (fs0, [])
    ∧ ¬ ((handle_output "" (some "out") "deck.pptx" fs0).2 ≠ []
          ∨ (handle_output "" (some "out") "deck.pptx" fs0).1.files ≠ fs0.files) := by
  decide

/-- C1 (amended): for every input file whose extraction raises an
`Exception` inside an extractor, the exception is caught, a diagnostic
is printed, the extractor returns the empty string, and the Output
Router then performs no action at all for that file — it neither
writes nor prints the empty result. -/
theorem C1_amended_catch_noop (msg fp : String) (v : Bool) (raw : String → List String)
    (out : Option String) (inp : String) (fs : FSState) :
    extract_text_from_pdf (fun _ => (Except.error (PyExn.exception msg), [])) raw fp v
      = (Except.ok "", ["Error extracting text from PDF: " ++ msg])
    ∧ extract_text_from_docx (fun _ => Except.error (PyExn.exception msg)) fp v
      = (Except.ok "", ["Error extracting text from DOCX: " ++ msg])
    ∧ extract_text_from_pptx (fun _ => Except.error (PyExn.exception msg)) fp v
      = (Except.ok "", ["Error extracting text from PPTX: " ++ msg])
    ∧ handle_output "" out inp fs = (fs, []) := by
  refine ⟨?_, ?_, ?_, ?_⟩ <;>
    simp [extract_text_from_pdf, extract_text_from_docx, extract_text_from_pptx,
      handle_output, tryExceptStr]

/-- C2: the PPTX with slides `[[Hello], [], [A, B]]` extracts to
exactly `--- Slide 1 ---\nHello\n--- Slide 3 ---\nA\nB`; in general
the slide loop emits, for every slide with at least one text-bearing
shape, a separator line numbered by its 1-based position followed by
one line per text-bearing shape, and nothing (no separator) for a
slide without text-bearing shapes. -/
theorem C2_pptx_format :
    extract_text_from_pptx (fun _ => Except.ok [[some "Hello"], [], [some "A", some "B"]])
        "deck.pptx" false
      = (Except.ok "--- Slide 1 ---\nHello\n--- Slide 3 ---\nA\nB", [])
    ∧ ∀ slides : List Slide, (pptxLoop slides 1 [] 0).1
        = ((List.enumFrom 1 slides).map (fun p =>
              let st := slideTexts p.2
              if st.isEmpty then [] else ("--- Slide " ++ toString p.1 ++ " ---") :: st)).flatten := by
  constructor
  · decide
  · intro slides
    rw [pptxLoop_enumFrom]
    simp

/-- C6: routing empty text is a silent no-op — no console print, no
file write or creation, whatever the output target and the input
path. -/
theorem C6_empty_text_noop (out : Option String) (inp : String) (fs : FSState) :
    handle_output "" out inp fs = (fs, []) := by
  simp [handle_output]

/-- C7: when the PDF parsing library is missing, invoking the PDF
extractor prints the install instruction and raises `SystemExit 1`
(process terminates with non-zero status); the extractor's
`except Exception` does not convert this into the per-file empty-text
result. -/
theorem C7_missing_dependency (fp : String) (raw : String → List String) (v : Bool) :
    extract_text_from_pdf extract_pdf_text_missing raw fp v
      = (Except.error (PyExn.systemExit 1),
         ["Error: pdfminer.six not installed. Run pip install pdfminer.six."])
    ∧ (extract_text_from_pdf extract_pdf_text_missing raw fp v).1 ≠ Except.ok "" := by
  refine ⟨?_, ?_⟩ <;>
    simp [extract_text_from_pdf, extract_pdf_text_missing, tryExceptStr]

/-- C3 (counterexample): the resolver called with the explicit format
value `""` (a value outside the three supported tags) does not fail
with `InvalidFormat`; Python truthiness treats it as absent and the
extension of the path decides. -/
theorem C3_counterexample :
    determine_file_format "report.pdf" (some "") = Except.ok FileFormat.pdf
    ∧ ¬ determine_file_format "report.pdf" (some "")
        = Except.error (FormatError.invalidFormat "") := by
  decide

/-- C3 (amended): for every path and every non-empty explicit format
value that case-insensitively equals one of the three tags, the
resolver returns that format regardless of the path's extension; for
every non-empty explicit value outside the three it fails with
`InvalidFormat` without consulting the extension; an empty explicit
value falls through to extension inference. -/
theorem C3_amended_explicit_format (path v : String) (hv : v ≠ "") :
    (strToLower v = "pdf" → determine_file_format path (some v) = Except.ok FileFormat.pdf)
    ∧ (strToLower v = "docx" → determine_file_format path (some v) = Except.ok FileFormat.docx)
    ∧ (strToLower v = "pptx" → determine_file_format path (some v) = Except.ok FileFormat.pptx)
    ∧ (strToLower v ≠ "pdf" → strToLower v ≠ "docx" → strToLower v ≠ "pptx" →
        determine_file_format path (some v)
          = Except.error (FormatError.invalidFormat (strToLower v))) := by
  have ht : optTruthy (some v) = true := by simp [optTruthy, hv]
  refine ⟨fun h => ?_, fun h => ?_, fun h => ?_, fun h1 h2 h3 => ?_⟩ <;>
    simp_all [determine_file_format]

/-- Witness for C3: the explicit value `Pdf` resolves a `.txt` path to
the PDF format, and the explicit value `jpeg` fails with
`InvalidFormat`. -/
theorem C3_witness :
    determine_file_format "report.txt" (some "Pdf") = Except.ok FileFormat.pdf
    ∧ determine_file_format "report.pdf" (some "jpeg")
        = Except.error (FormatError.invalidFormat (strToLower "jpeg")) :=
  ⟨(C3_amended_explicit_format "report.txt" "Pdf" (by decide)).1 (by decide),
   (C3_amended_explicit_format "report.pdf" "jpeg" (by decide)).2.2.2
     (by decide) (by decide) (by decide)⟩

/-- C4: with no explicit format, the resolver returns a format exactly
when the lower-cased `splitext` extension of the path is that
format's dotted extension, and fails with `UnsupportedFormat` for any
other extension, including the empty one. -/
theorem C4_extension_inference (path : String) :
    (∀ f : FileFormat, determine_file_format path none = Except.ok f
        ↔ strToLower (splitext path).2 = f.extTag)
    ∧ (strToLower (splitext path).2 ≠ ".pdf" → strToLower (splitext path).2 ≠ ".docx" →
        strToLower (splitext path).2 ≠ ".pptx" →
        determine_file_format path none = Except.error (FormatError.unsupportedFormat path)) := by
  constructor
  · intro f
    cases f <;>
      simp only [determine_file_format, optTruthy, FileFormat.extTag] <;>
      by_cases h1 : strToLower (splitext path).2 = ".pdf" <;>
      by_cases h2 : strToLower (splitext path).2 = ".docx" <;>
      by_cases h3 : strToLower (splitext path).2 = ".pptx" <;>
      simp_all
  · intro h1 h2 h3
    simp [determine_file_format, optTruthy, h1, h2, h3]

/-- Witness for C4: an upper-cased `.PPTX` extension resolves to the
PPTX format; a `.txt` extension fails with `UnsupportedFormat`. -/
theorem C4_witness :
    determine_file_format "slides.PPTX" none = Except.ok FileFormat.pptx
    ∧ determine_file_format "notes.txt" none
        = Except.error (FormatError.unsupportedFormat "notes.txt") :=
  ⟨((C4_extension_inference "slides.PPTX").1 FileFormat.pptx).mpr (by decide),
   (C4_extension_inference "notes.txt").2 (by decide) (by decide) (by decide)⟩

/-- C5 (counterexample): with two input paths but no output path
supplied, the claim's condition (more than one input path) holds, yet
the precomputed directory-shaped decision is false — the decision also
requires an output path to be present. -/
theorem C5_counterexample :
    1 < argsC5.file_paths.length ∧ output_is_dir argsC5 fs0 = false := by
  decide

/-- C5 (amended): the directory-shaped decision is computed once
before the per-file loop from the initial filesystem state (the loop
receives it as a fixed value) and is true exactly when an output path
was supplied (truthy) and, in addition, more than one input path was
supplied, or the output path is an existing directory, or it textually
ends with the platform path separator; when it is true, each input
file's output path is the output directory joined with the input's
base name without extension plus the `.txt` extension. -/
theorem C5_amended_dir_decision (args : Args) (env : Env) (fs : FSState)
    (hne : args.file_paths ≠ []) :
    (output_is_dir args fs = true ↔
      (optTruthy args.output = true ∧
        (1 < args.file_paths.length ∨ fs.isdir (args.output.getD "") = true ∨
         strEndsWith (args.output.getD "") "/" = true)))
    ∧ (output_is_dir args fs = true → ∀ fp : String,
        per_file_output_path args (output_is_dir args fs) fp
          = some (joinPath (args.output.getD "")
              ((splitext (basename fp)).1 ++ ".txt")))
    ∧ main_fn args env fs = mainLoop args env (output_is_dir args fs) args.file_paths fs := by
  have h0 : 0 < args.file_paths.length := List.length_pos.mpr hne
  refine ⟨?_, ?_, rfl⟩
  · simp only [output_is_dir, Bool.and_eq_true, Bool.or_eq_true, decide_eq_true_eq]
    constructor
    · rintro ⟨hopt, hrest⟩
      refine ⟨hopt, ?_⟩
      rcases hrest with (h | h) | h
      · exact Or.inr (Or.inl h)
      · exact Or.inr (Or.inr h)
      · exact Or.inl (by omega)
    · rintro ⟨hopt, hrest⟩
      refine ⟨hopt, ?_⟩
      rcases hrest with h | h | h
      · exact Or.inr (by omega)
      · exact Or.inl (Or.inl h)
      · exact Or.inl (Or.inr h)
  · intro h fp
    have hopt : optTruthy args.output = true := by
      have h2 := h
      simp only [output_is_dir, Bool.and_eq_true] at h2
      exact h2.1
    simp [per_file_output_path, hopt, h]

/-- Witness for C5: in a two-input run with existing output directory
`out`, the decision is true and the first input's output path is
`out/doc.txt`. -/
theorem C5_witness :
    per_file_output_path argsC5w (output_is_dir argsC5w fsC9) "a/doc.pdf"
      = some (joinPath "out" ((splitext (basename "a/doc.pdf")).1 ++ ".txt")) :=
  (C5_amended_dir_decision argsC5w env0 fsC9 (by decide)).2.1 (by decide) "a/doc.pdf"

/-- C8 (counterexample): the casing `PDF` of a supported tag, although
case-insensitively equal to `pdf`, is rejected by the exact `choices`
check `argparse` applies to the command line value of the format
flag. -/
theorem C8_counterexample :
    strToLower "PDF" = "pdf" ∧ format_choice_ok "PDF" = false := by
  decide

/-- C8 (amended): the command line accepts exactly the lower-case
values `pdf`, `docx`, `pptx` for the format flag (the `choices` check
is case-sensitive, so every other value — other casings included — is
an error), and every accepted value resolves to its format regardless
of the path. -/
theorem C8_amended_cli_format (path v : String) :
    (format_choice_ok v = true ↔ (v = "pdf" ∨ v = "docx" ∨ v = "pptx"))
    ∧ (format_choice_ok v = true →
        ∃ f : FileFormat, determine_file_format path (some v) = Except.ok f ∧ f.tag = v) := by
  have hmem : format_choice_ok v = true ↔ (v = "pdf" ∨ v = "docx" ∨ v = "pptx") := by
    constructor
    · intro h
      have hm : v ∈ ["pdf", "docx", "pptx"] := by
        simpa [format_choice_ok, List.elem_iff, List.contains] using h
      simpa using hm
    · intro h
      have hm : v ∈ ["pdf", "docx", "pptx"] := by
        rcases h with h | h | h <;> simp [h]
      simpa [format_choice_ok, List.elem_iff, List.contains] using hm
  refine ⟨hmem, fun h => ?_⟩
  rcases hmem.mp h with h1 | h1 | h1 <;> subst h1
  · exact ⟨FileFormat.pdf, rfl, rfl⟩
  · exact ⟨FileFormat.docx, rfl, rfl⟩
  · exact ⟨FileFormat.pptx, rfl, rfl⟩

/-- Witness for C8: the accepted value `docx` resolves a `.bin` path
to the DOCX format. -/
theorem C8_witness :
    ∃ f : FileFormat, determine_file_format "x.bin" (some "docx") = Except.ok f
      ∧ f.tag = "docx" :=
  (C8_amended_cli_format "x.bin" "docx").2 (by decide)

/-- C9: two input paths with equal base names without extension are
assigned the identical per-file output path under any run, and in the
concrete two-input run over `a/doc.pdf` and `b/doc.docx` with output
directory `out`, both writes go to `out/doc.txt` and the file ends up
holding the later input's text. -/
theorem C9_stem_collision :
    (∀ (args : Args) (oid : Bool) (p q : String),
        (splitext (basename p)).1 = (splitext (basename q)).1 →
        per_file_output_path args oid p = per_file_output_path args oid q)
    ∧ ((main_fn argsC9 envC9 fsC9).1.map (fun fs2 => fs2.files.lookup "out/doc.txt")
        = Except.ok (some "DOCX TEXT"))
    ∧ (main_fn argsC9 envC9 fsC9).2
        = ["Text extracted to: out/doc.txt", "Text extracted to: out/doc.txt"] := by
  refine ⟨fun args oid p q h => ?_, by decide, by decide⟩
  simp [per_file_output_path, h]

/-- Witness for C9: the stem-colliding inputs of the concrete run are
assigned the same output path. -/
theorem C9_witness :
    per_file_output_path argsC9 true "a/doc.pdf" = per_file_output_path argsC9 true "b/doc.docx" :=
  C9_stem_collision.1 argsC9 true "a/doc.pdf" "b/doc.docx" (by decide)

/-- C10: a DOCX with zero paragraphs and a PPTX in which no slide has
a text-bearing shape extract to the empty string with no printed
output, routing the empty text performs no action (no console output,
no output file), and a failed PPTX extraction hands the router the
very same empty text, so the two are indistinguishable to the Output
Router. -/
theorem C10_empty_documents (fp msg : String) (docxOpen : String → Except PyExn (List String))
    (pptxOpen : String → Except PyExn (List Slide)) (slides : List Slide)
    (out : Option String) (inp : String) (fs : FSState)
    (hd : docxOpen fp = Except.ok [])
    (hp : pptxOpen fp = Except.ok slides)
    (hs : ∀ sl ∈ slides, slideTexts sl = []) :
    extract_text_from_docx docxOpen fp false = (Except.ok "", [])
    ∧ extract_text_from_pptx pptxOpen fp false = (Except.ok "", [])
    ∧ handle_output "" out inp fs = (fs, [])
    ∧ (extract_text_from_pptx (fun _ => Except.error (PyExn.exception msg)) fp false).1
        = Except.ok "" := by
  refine ⟨?_, ?_, ?_, ?_⟩
  · simp [extract_text_from_docx, hd, tryExceptStr, String.intercalate]
  · simp [extract_text_from_pptx, hp, tryExceptStr,
      pptxLoop_texts_empty slides 1 0 [] hs, String.intercalate]
  · simp [handle_output]
  · simp [extract_text_from_pptx, tryExceptStr]

/-- Witness for C10: an empty DOCX, a PPTX whose shapes have no text
attribute or an empty text, a routed empty text, and a failing PPTX
open. -/
theorem C10_witness :
    extract_text_from_docx (fun _ => Except.ok []) "empty.docx" false = (Except.ok "", [])
    ∧ extract_text_from_pptx (fun _ => Except.ok [[none, some ""], []]) "empty.docx" false
        = (Except.ok "", [])
    ∧ handle_output "" (some "out") "empty.docx" fs0 = (fs0, [])
    ∧ (extract_text_from_pptx (fun _ => Except.error (PyExn.exception "broken"))
          "empty.docx" false).1 = Except.ok "" :=
  C10_empty_documents "empty.docx" "broken" (fun _ => Except.ok [])
    (fun _ => Except.ok [[none, some ""], []]) [[none, some ""], []]
    (some "out") "empty.docx" fs0 rfl rfl (by decide)
